import Mathlib

/-!
Verification development for the Notion MCP server (`main.py`).

The Python source is shallowly embedded: JSON values (the dictionaries the
Notion API returns) become the inductive type `Json`; Python dictionary and
sequence primitives (`dict.get`, `d[k]`, `k in d`, iteration, `str.join`,
truthiness, `str()` conversion) become total Lean functions returning
`Except String _` wherever the Python operation can raise (`AttributeError`,
`TypeError`, `KeyError`).  A returned `Except.error` models an uncaught
Python exception; `Except.ok` models normal return.

JSON numbers are modelled as integers: none of the verified properties
depends on fractional values, and the source never computes with numbers,
it only converts them to strings.
-/

inductive Json where
  | null
  | bool (b : Bool)
  | num (n : Int)
  | str (s : String)
  | arr (elems : List Json)
  | obj (fields : List (String × Json))

/-- Python truthiness (`bool(x)`) for JSON-shaped values. -/
def truthy : Json → Bool
  | Json.null => false
  | Json.bool b => b
  | Json.num n => n != 0
  | Json.str s => s ≠ ""
  | Json.arr xs => !xs.isEmpty
  | Json.obj kvs => !kvs.isEmpty

/-- The Python type name, used in exception messages. -/
def pyTypeName : Json → String
  | Json.null => "NoneType"
  | Json.bool _ => "bool"
  | Json.num _ => "int"
  | Json.str _ => "str"
  | Json.arr _ => "list"
  | Json.obj _ => "dict"

mutual
/-- Python `repr()` for JSON-shaped values (string escaping inside
container reprs is not reproduced; no verified property depends on it). -/
def pyRepr : Json → String
  | Json.null => "None"
  | Json.bool true => "True"
  | Json.bool false => "False"
  | Json.num n => toString n
  | Json.str s => "\x27" ++ s ++ "\x27"
  | Json.arr xs => "[" ++ pyReprList xs ++ "]"
  | Json.obj kvs => "\x7b" ++ pyReprFields kvs ++ "\x7d"

def pyReprList : List Json → String
  | [] => ""
  | [x] => pyRepr x
  | x :: y :: xs => pyRepr x ++ ", " ++ pyReprList (y :: xs)

def pyReprFields : List (String × Json) → String
  | [] => ""
  | [kv] => "\x27" ++ kv.fst ++ "\x27: " ++ pyRepr kv.snd
  | kv :: kv2 :: kvs => "\x27" ++ kv.fst ++ "\x27: " ++ pyRepr kv.snd ++ ", " ++ pyReprFields (kv2 :: kvs)
end

/-- Python `str()` as used by f-string interpolation. -/
def pyStr : Json → String
  | Json.null => "None"
  | Json.bool true => "True"
  | Json.bool false => "False"
  | Json.num n => toString n
  | Json.str s => s
  | Json.arr xs => pyRepr (Json.arr xs)
  | Json.obj kvs => pyRepr (Json.obj kvs)

/-- First binding of a key in a field list (Python dict keys are unique,
so first-match lookup is dict lookup). -/
def lookupKey (key : String) : List (String × Json) → Option Json
  | [] => none
  | (k, v) :: rest => if k = key then some v else lookupKey key rest

/-- Python `x.get(key, dflt)`: only dictionaries have `.get`; a stored
`null` is returned as such (the default applies only to a missing key). -/
def pyGet (j : Json) (key : String) (dflt : Json) : Except String Json :=
  match j with
  | Json.obj kvs => Except.ok ((lookupKey key kvs).getD dflt)
  | _ => Except.error ("AttributeError: " ++ pyTypeName j ++ " object has no attribute get")

/-- Python `x[key]` for a string key. -/
def pyIndex (j : Json) (key : String) : Except String Json :=
  match j with
  | Json.obj kvs =>
    match lookupKey key kvs with
    | some v => Except.ok v
    | none => Except.error ("KeyError: " ++ key)
  | _ => Except.error ("TypeError: " ++ pyTypeName j ++ " object is not subscriptable")

/-- Whether the first character list is an initial segment of the second. -/
def charsStartWith : List Char → List Char → Bool
  | [], _ => true
  | _ :: _, [] => false
  | a :: as, b :: bs => a = b && charsStartWith as bs

/-- Whether the first character list occurs contiguously in the second. -/
def charsContain (needle : List Char) : List Char → Bool
  | [] => needle.isEmpty
  | c :: cs => charsStartWith needle (c :: cs) || charsContain needle cs

/-- Python substring test `needle in hay` for strings. -/
def strIsSubstr (needle hay : String) : Bool :=
  charsContain needle.data hay.data

/-- Whether a JSON value equals a given Python string. -/
def isStr (j : Json) (s : String) : Bool :=
  match j with
  | Json.str t => t = s
  | _ => false

/-- Python membership `s in container` for a string left operand. -/
def pyInStr (s : String) (container : Json) : Except String Bool :=
  match container with
  | Json.obj kvs => Except.ok (lookupKey s kvs).isSome
  | Json.arr xs => Except.ok (xs.any (fun x => isStr x s))
  | Json.str t => Except.ok (strIsSubstr s t)
  | _ => Except.error ("TypeError: argument of type " ++ pyTypeName container ++ " is not iterable")

/-- Python membership `key in d` where `key` is an arbitrary value and `d` a
dictionary with string keys: unhashable keys (lists, dicts) raise; any other
non-string key simply fails to match. -/
def pyContainsKey (d : Json) (key : Json) : Except String Bool :=
  match d with
  | Json.obj kvs =>
    match key with
    | Json.str s => Except.ok (lookupKey s kvs).isSome
    | Json.arr _ => Except.error "TypeError: unhashable type: list"
    | Json.obj _ => Except.error "TypeError: unhashable type: dict"
    | _ => Except.ok false
  | _ => Except.error ("TypeError: argument of type " ++ pyTypeName d ++ " is not iterable")

/-- Python iteration `for x in j`: lists yield elements, strings yield
one-character strings, dicts yield their keys, the rest raise. -/
def pyIter (j : Json) : Except String (List Json) :=
  match j with
  | Json.arr xs => Except.ok xs
  | Json.str s => Except.ok (s.data.map (fun c => Json.str (String.mk [c])))
  | Json.obj kvs => Except.ok (kvs.map (fun kv => Json.str kv.fst))
  | _ => Except.error ("TypeError: " ++ pyTypeName j ++ " object is not iterable")

/-- Python `d.items()`. -/
def pyItems (j : Json) : Except String (List (String × Json)) :=
  match j with
  | Json.obj kvs => Except.ok kvs
  | _ => Except.error ("AttributeError: " ++ pyTypeName j ++ " object has no attribute items")

/-- Python `len(x)`. -/
def pyLen (j : Json) : Except String Nat :=
  match j with
  | Json.arr xs => Except.ok xs.length
  | Json.str s => Except.ok s.length
  | Json.obj kvs => Except.ok kvs.length
  | _ => Except.error ("TypeError: " ++ pyTypeName j ++ " object has no len")

/-- Python `sep.join(parts)`: every part must already be a string. -/
def pyStrJoin (sep : String) (parts : List Json) : Except String String := do
  let strs ← parts.mapM (fun p =>
    match p with
    | Json.str s => Except.ok s
    | _ => (Except.error ("TypeError: sequence item: expected str instance, " ++ pyTypeName p ++ " found") : Except String String))
  return String.intercalate sep strs

/-- Embedding of `"".join([run.get("plain_text", "") for run in partsJ])`
applied to a value already in hand (a rich-text run list). -/
def joinPlainOf (partsJ : Json) : Except String String := do
  let runs ← pyIter partsJ
  let parts ← runs.mapM (fun r => pyGet r "plain_text" (Json.str ""))
  pyStrJoin "" parts

/-- Embedding of `"".join([run.get("plain_text", "") for run in content.get(field, [])])`. -/
def joinPlainText (content : Json) (field : String) : Except String String := do
  let partsJ ← pyGet content field (Json.arr [])
  joinPlainOf partsJ

/-- Embedding of `"  " * indent`. -/
def indentStr (n : Nat) : String :=
  String.join (List.replicate n "  ")

/-- The child-blocks notice appended by `format_block` (main.py line 348). -/
def childNote : String :=
  "[This block has child blocks that aren\x27t displayed here]"

/-- The placeholder line of main.py line 211:
`f"{indent_str}[Unsupported block type: {block_type}]"`. -/
def unsupportedLine (ind t : String) : String :=
  ind ++ "[Unsupported block type: " ++ t ++ "]"

/-- The per-type dispatch of `format_block` (main.py lines 216-343): the body
of the if/elif chain, producing the single string each branch appends. -/
def blockBody (s : String) (content : Json) (ind : String) : Except String String :=
  if s = "paragraph" then do
    let text ← joinPlainText content "rich_text"
    return ind ++ text
  else if s = "heading_1" then do
    let text ← joinPlainText content "rich_text"
    return ind ++ "# " ++ text
  else if s = "heading_2" then do
    let text ← joinPlainText content "rich_text"
    return ind ++ "## " ++ text
  else if s = "heading_3" then do
    let text ← joinPlainText content "rich_text"
    return ind ++ "### " ++ text
  else if s = "bulleted_list_item" then do
    let text ← joinPlainText content "rich_text"
    return ind ++ "• " ++ text
  else if s = "numbered_list_item" then do
    let text ← joinPlainText content "rich_text"
    -- Simplified, will not have proper numbering (source comment, line 270)
    return ind ++ "1. " ++ text
  else if s = "to_do" then do
    let text ← joinPlainText content "rich_text"
    let checkedJ ← pyGet content "checked" (Json.bool false)
    let checked := if truthy checkedJ then "✓" else "☐"
    return ind ++ checked ++ " " ++ text
  else if s = "toggle" then do
    let text ← joinPlainText content "rich_text"
    return ind ++ "▶ " ++ text
  else if s = "code" then do
    let text ← joinPlainText content "rich_text"
    let language ← pyGet content "language" (Json.str "")
    return ind ++ "```" ++ pyStr language ++ "\n" ++ ind ++ text ++ "\n" ++ ind ++ "```"
  else if s = "image" then do
    let caption ← joinPlainText content "caption"
    let hasFile ← pyContainsKey content (Json.str "file")
    let url ← (do
      if hasFile then do
        let f ← pyIndex content "file"
        pyGet f "url" (Json.str "")
      else do
        let hasExt ← pyContainsKey content (Json.str "external")
        if hasExt then do
          let e ← pyIndex content "external"
          pyGet e "url" (Json.str "")
        else
          return Json.str "")
    let caption_text := if caption ≠ "" then " - " ++ caption else ""
    return ind ++ "[Image" ++ caption_text ++ "](" ++ pyStr url ++ ")"
  else if s = "divider" then
    Except.ok (ind ++ "---")
  else if s = "callout" then do
    let text ← joinPlainText content "rich_text"
    let icon ← pyGet content "icon" (Json.obj [])
    let emoji ← pyGet icon "emoji" (Json.str "")
    return ind ++ pyStr emoji ++ " | " ++ text
  else if s = "quote" then do
    let text ← joinPlainText content "rich_text"
    return ind ++ "> " ++ text
  else if s = "table" then
    Except.ok (ind ++ "[Table - use get_table_content to view]")
  else
    Except.ok (ind ++ "[" ++ s ++ " block]")

/-- Embedding of `format_block(block, indent)` (main.py lines 201-351).  The early
return for a missing type or missing payload key bypasses the
`has_children` suffix, exactly as in the source, where that `return` leaves
the function before the suffix is appended. -/
def format_block (block : Json) (indent : Nat) : Except String String := do
  let block_type ← pyGet block "type" Json.null
  let has_children ← pyGet block "has_children" (Json.bool false)
  let ind := indentStr indent
  if truthy block_type = false then
    return unsupportedLine ind (pyStr block_type)
  match block_type with
  | Json.str s => do
    let mem ← pyContainsKey block (Json.str s)
    if mem = false then
      return unsupportedLine ind s
    let content ← pyIndex block s
    let main ← blockBody s content ind
    if truthy has_children then
      return main ++ "\n" ++ ind ++ childNote
    return main
  | other => do
    let mem ← pyContainsKey block other
    if mem = false then
      return unsupportedLine ind (pyStr other)
    -- a non-string key can never be present in a string-keyed dictionary,
    -- so this point is unreachable; `pyContainsKey` has already raised for
    -- unhashable keys, as `block_type not in block` does in Python
    Except.error "unreachable: non-string key found in a string-keyed dict"

/-! ### HTTP and tool-invocation model

A tool invocation is modelled as a pure function of the environment value of
`NOTION_API_KEY` (re-read on every call, main.py line 30), the tool
arguments, and the sequence of HTTP responses the remote service would
return to the requests the tool issues, in order.  The outcome records the
requests actually attempted, the messages reported through `ctx.error`, and
the returned string or the uncaught exception. -/

inductive HttpMethod where
  | get
  | post

structure HttpRequest where
  method : HttpMethod
  url : String
  payload : Option Json

structure HttpResponse where
  status : Nat
  body : Json
  text : String

structure ToolOutcome where
  requests : List HttpRequest
  ctxErrors : List String
  result : Except String String

/-- Message passed to `ctx.error` by `check_api_key` (main.py lines 32-34). -/
def noApiKeyMsg : String :=
  "NOTION_API_KEY environment variable is not set. Please set it before making API calls."

/-- The `ValueError` raised by `check_api_key` (main.py line 35). -/
def valueErrorMsg : String :=
  "ValueError: NOTION_API_KEY environment variable is not set"

/-- Embedding of `check_api_key(ctx)` (main.py lines 26-35): re-reads the key from the
environment; `if not NOTION_API_KEY` treats both an unset variable and an
empty string as missing, reports through `ctx.error` and raises. -/
def check_api_key (env : Option String) : Except String Unit :=
  match env with
  | none => Except.error valueErrorMsg
  | some s => if s = "" then Except.error valueErrorMsg else Except.ok ()

/-- Outcome of any tool invoked with the credential missing: the error is
reported through the context, the `ValueError` propagates, and no HTTP
request has been attempted. -/
def abortOutcome : ToolOutcome :=
  { requests := [], ctxErrors := [noApiKeyMsg], result := Except.error valueErrorMsg }

/-- Outcome modelling a transport-level failure (no response available for a
request): whatever `httpx` raises propagates uncaught (spec section 5). -/
def connectFail (reqs : List HttpRequest) : ToolOutcome :=
  { requests := reqs, ctxErrors := [], result := Except.error "httpx.ConnectError" }

/-! ### search_notion_pages (main.py lines 47-132) -/

def searchUrl : String := "https://api.notion.com/v1/search"

/-- The request payload built at main.py lines 70-81, in insertion order:
`query` if truthy, `page_size` if truthy (clamped by `min(100, page_size)`),
`filter` if `filter_type` is truthy and equals "page" or "database", and
always `sort`. -/
def searchPayload (query filter_type : Option String) (page_size : Int) : List (String × Json) :=
  (match query with
   | some q => if q = "" then [] else [("query", Json.str q)]
   | none => []) ++
  (if page_size = 0 then [] else [("page_size", Json.num (min 100 page_size))]) ++
  (match filter_type with
   | some f =>
     if f = "page" ∨ f = "database" then
       [("filter", Json.obj [("value", Json.str f), ("property", Json.str "object")])]
     else []
   | none => []) ++
  [("sort", Json.obj [("direction", Json.str "descending"), ("timestamp", Json.str "last_edited_time")])]

/-- Title resolution for one search hit (main.py lines 102-123). -/
def searchItemTitle (item : Json) (item_type : Json) : Except String String := do
  if isStr item_type "page" then do
    let cond ← (do
      let hp ← pyInStr "properties" item
      if hp then do
        let props ← pyIndex item "properties"
        pyInStr "title" props
      else
        return false)
    if cond then do
      let props ← pyIndex item "properties"
      let tprop ← pyIndex props "title"
      let title_parts ← pyGet tprop "title" (Json.arr [])
      if truthy title_parts then
        joinPlainOf title_parts
      else
        return "Untitled"
    else do
      let ht ← pyInStr "title" item
      if ht then do
        let title_parts ← pyIndex item "title"
        if truthy title_parts then
          joinPlainOf title_parts
        else
          return "Untitled"
      else
        return "Untitled"
  else if isStr item_type "database" then do
    let ht ← pyInStr "title" item
    if ht then do
      let title_parts ← pyIndex item "title"
      if truthy title_parts then
        joinPlainOf title_parts
      else
        return "Untitled"
    else
      return "Untitled"
  else
    return "Untitled"

/-- The 3-line rendering of one search hit (main.py lines 97-130). -/
def formatSearchItem (item : Json) : Except String String := do
  let item_id ← pyGet item "id" (Json.str "Unknown ID")
  let item_type ← pyGet item "object" (Json.str "unknown")
  let title ← searchItemTitle item item_type
  let url ← pyGet item "url" (Json.str "No URL")
  let last_edited ← pyGet item "last_edited_time" (Json.str "Unknown")
  return "- " ++ title ++ " (" ++ pyStr item_type ++ ")\n  ID: " ++ pyStr item_id ++
    "\n  URL: " ++ pyStr url ++ "\n  Last Edited: " ++ pyStr last_edited

/-- Formatting of a successful search response body (main.py lines 89-132). -/
def searchFormatBody (data : Json) : Except String String := do
  let results ← pyGet data "results" (Json.arr [])
  if truthy results = false then
    return "No results found"
  let items ← pyIter results
  let lines ← items.mapM formatSearchItem
  return String.intercalate "\n\n" lines

/-- Embedding of `search_notion_pages(query, filter_type, page_size, ctx)`
(main.py lines 47-132). -/
def search_notion_pages (env : Option String) (query filter_type : Option String)
    (page_size : Int) (responses : List HttpResponse) : ToolOutcome :=
  match check_api_key env with
  | Except.error e => { requests := [], ctxErrors := [noApiKeyMsg], result := Except.error e }
  | Except.ok _ =>
    let payload := searchPayload query filter_type page_size
    let req : HttpRequest := ⟨HttpMethod.post, searchUrl, some (Json.obj payload)⟩
    match responses with
    | [] => connectFail [req]
    | r :: _ =>
      { requests := [req], ctxErrors := [],
        result :=
          if r.status ≠ 200 then
            Except.ok ("Error: " ++ toString r.status ++ " - " ++ r.text)
          else
            searchFormatBody r.body }

/-! ### get_page_content (main.py lines 135-198) -/

/-- Page title extraction (main.py lines 174-184): the `title` property is
preferred, falling back to `Name`; both short-circuit through Python `or`
and the `title_prop and "title" in title_prop` guard. -/
def pageTitle (page_data : Json) : Except String String := do
  let hp ← pyInStr "properties" page_data
  if hp then do
    let props ← pyIndex page_data "properties"
    let t1 ← pyGet props "title" Json.null
    let t2 ← pyGet props "Name" Json.null
    let title_prop := if truthy t1 then t1 else t2
    let cond ← (if truthy title_prop then pyInStr "title" title_prop else pure false)
    if cond then do
      let title_parts ← pyIndex title_prop "title"
      if truthy title_parts then
        joinPlainOf title_parts
      else
        return "Untitled"
    else
      return "Untitled"
  else
    return "Untitled"

/-- Assembly of the page report from the two response bodies
(main.py lines 170-198): metadata lines, a `Content` heading, then each
child block rendered by `format_block` and kept when non-empty. -/
def pageContentBody (page_data blocks_data : Json) : Except String String := do
  let title ← pageTitle page_data
  let idv ← pyGet page_data "id" Json.null
  let urlv ← pyGet page_data "url" Json.null
  let lastv ← pyGet page_data "last_edited_time" Json.null
  let resultsJ ← pyGet blocks_data "results" (Json.arr [])
  let blocks ← pyIter resultsJ
  let blockLines ← blocks.mapM (fun b => format_block b 0)
  let kept := blockLines.filter (fun l => l ≠ "")
  return String.intercalate "\n"
    (["# " ++ title, "Page ID: " ++ pyStr idv, "URL: " ++ pyStr urlv,
      "Last Edited: " ++ pyStr lastv, "\n## Content:\n"] ++ kept)

/-- Embedding of `get_page_content(page_id, ctx)` (main.py lines 135-198): metadata
fetch, then child-block fetch; a non-200 status on either is converted to a
plain error string and the second request is not attempted after a failed
first one. -/
def get_page_content (env : Option String) (page_id : String)
    (responses : List HttpResponse) : ToolOutcome :=
  match check_api_key env with
  | Except.error e => { requests := [], ctxErrors := [noApiKeyMsg], result := Except.error e }
  | Except.ok _ =>
    let pageReq : HttpRequest :=
      ⟨HttpMethod.get, "https://api.notion.com/v1/pages/" ++ page_id, none⟩
    match responses with
    | [] => connectFail [pageReq]
    | r1 :: rest =>
      if r1.status ≠ 200 then
        { requests := [pageReq], ctxErrors := [],
          result := Except.ok ("Error retrieving page: " ++ toString r1.status ++ " - " ++ r1.text) }
      else
        let blocksReq : HttpRequest :=
          ⟨HttpMethod.get, "https://api.notion.com/v1/blocks/" ++ page_id ++ "/children", none⟩
        match rest with
        | [] => connectFail [pageReq, blocksReq]
        | r2 :: _ =>
          { requests := [pageReq, blocksReq], ctxErrors := [],
            result :=
              if r2.status ≠ 200 then
                Except.ok ("Error retrieving page content: " ++ toString r2.status ++ " - " ++ r2.text)
              else
                pageContentBody r1.body r2.body }

/-! ### get_database_content (main.py lines 354-473) -/

/-- The query payload built at main.py lines 385-387. -/
def databaseQueryPayload (max_pages : Int) : List (String × Json) :=
  [("page_size", Json.num (min max_pages 100))]

/-- Database title extraction (main.py lines 400-404). -/
def databaseTitle (db_data : Json) : Except String String := do
  let ht ← pyInStr "title" db_data
  if ht then do
    let title_parts ← pyIndex db_data "title"
    if truthy title_parts then
      joinPlainOf title_parts
    else
      return "Untitled Database"
  else
    return "Untitled Database"

/-- One schema line (main.py lines 412-414). -/
def schemaLine (kv : String × Json) : Except String String := do
  let t ← pyGet kv.snd "type" (Json.str "unknown")
  return "- " ++ kv.fst ++ ": " ++ pyStr t

/-- Property-value extraction (main.py lines 428-469): each elif arm is the
conjunction of a type test, a key-presence test and, for select/date, a
truthiness test; when no arm fires the initial `"N/A"` survives. -/
def propValue (t : Json) (prop_data : Json) : Except String Json := do
  if isStr t "title" then do
    let m ← pyInStr "title" prop_data
    if m then do
      let parts ← pyIndex prop_data "title"
      Json.str <$> joinPlainOf parts
    else
      return Json.str "N/A"
  else if isStr t "rich_text" then do
    let m ← pyInStr "rich_text" prop_data
    if m then do
      let parts ← pyIndex prop_data "rich_text"
      Json.str <$> joinPlainOf parts
    else
      return Json.str "N/A"
  else if isStr t "number" then do
    let m ← pyInStr "number" prop_data
    if m then
      pyIndex prop_data "number"
    else
      return Json.str "N/A"
  else if isStr t "select" then do
    let m ← pyInStr "select" prop_data
    if m then do
      let sel ← pyIndex prop_data "select"
      if truthy sel then
        pyGet sel "name" (Json.str "")
      else
        return Json.str "N/A"
    else
      return Json.str "N/A"
  else if isStr t "multi_select" then do
    let m ← pyInStr "multi_select" prop_data
    if m then do
      let optionsJ ← pyIndex prop_data "multi_select"
      let options ← pyIter optionsJ
      let names ← options.mapM (fun o => pyGet o "name" (Json.str ""))
      Json.str <$> pyStrJoin ", " names
    else
      return Json.str "N/A"
  else if isStr t "date" then do
    let m ← pyInStr "date" prop_data
    if m then do
      let d ← pyIndex prop_data "date"
      if truthy d then do
        let start ← pyGet d "start" (Json.str "")
        let endv ← pyGet d "end" (Json.str "")
        if truthy endv then
          match start with
          | Json.str s => return Json.str (s ++ " to " ++ pyStr endv)
          | other => Except.error ("TypeError: unsupported operand types for +=: " ++ pyTypeName other ++ " and str")
        else
          return start
      else
        return Json.str "N/A"
    else
      return Json.str "N/A"
  else if isStr t "checkbox" then do
    let m ← pyInStr "checkbox" prop_data
    if m then do
      let v ← pyIndex prop_data "checkbox"
      return Json.str (if truthy v then "✓" else "☐")
    else
      return Json.str "N/A"
  else if isStr t "url" then do
    let m ← pyInStr "url" prop_data
    if m then do
      let v ← pyIndex prop_data "url"
      return (if truthy v then v else Json.str "N/A")
    else
      return Json.str "N/A"
  else if isStr t "email" then do
    let m ← pyInStr "email" prop_data
    if m then do
      let v ← pyIndex prop_data "email"
      return (if truthy v then v else Json.str "N/A")
    else
      return Json.str "N/A"
  else if isStr t "phone_number" then do
    let m ← pyInStr "phone_number" prop_data
    if m then do
      let v ← pyIndex prop_data "phone_number"
      return (if truthy v then v else Json.str "N/A")
    else
      return Json.str "N/A"
  else
    return Json.str "N/A"

/-- One property line of a database entry (main.py lines 427-471):
`- {prop_name}: {prop_value}` with the value interpolated by `str()`. -/
def formatProperty (prop_name : String) (prop_data : Json) : Except String String := do
  let prop_type ← pyGet prop_data "type" (Json.str "unknown")
  let prop_value ← propValue prop_type prop_data
  return "- " ++ prop_name ++ ": " ++ pyStr prop_value

/-- The lines emitted for one database entry (main.py lines 420-471). -/
def formatEntry (i : Nat) (entry : Json) : Except String (List String) := do
  let idv ← pyGet entry "id" Json.null
  let urlv ← pyGet entry "url" Json.null
  let properties ← pyGet entry "properties" (Json.obj [])
  let props ← pyItems properties
  let propLines ← props.mapM (fun kv => formatProperty kv.fst kv.snd)
  return ["\n### Entry " ++ toString i, "ID: " ++ pyStr idv, "URL: " ++ pyStr urlv] ++ propLines

/-- Assembly of the database report from the two response bodies
(main.py lines 396-473). -/
def databaseBody (db_data query_data : Json) : Except String String := do
  let title ← databaseTitle db_data
  let idv ← pyGet db_data "id" Json.null
  let urlv ← pyGet db_data "url" Json.null
  let propsJ ← pyGet db_data "properties" (Json.obj [])
  let schemaKvs ← pyItems propsJ
  let schemaLines ← schemaKvs.mapM schemaLine
  let entriesJ ← pyGet query_data "results" (Json.arr [])
  let n ← pyLen entriesJ
  let entries ← pyIter entriesJ
  let entryGroups ← entries.enum.mapM (fun p => formatEntry (p.fst + 1) p.snd)
  return String.intercalate "\n"
    (["# " ++ title, "Database ID: " ++ pyStr idv, "URL: " ++ pyStr urlv,
      "\n## Database Schema:"] ++ schemaLines ++
     ["\n## Database Entries (" ++ toString n ++ "):"] ++ entryGroups.flatten)

/-- Embedding of `get_database_content(database_id, max_pages, ctx)`
(main.py lines 354-473). -/
def get_database_content (env : Option String) (database_id : String) (max_pages : Int)
    (responses : List HttpResponse) : ToolOutcome :=
  match check_api_key env with
  | Except.error e => { requests := [], ctxErrors := [noApiKeyMsg], result := Except.error e }
  | Except.ok _ =>
    let dbReq : HttpRequest :=
      ⟨HttpMethod.get, "https://api.notion.com/v1/databases/" ++ database_id, none⟩
    match responses with
    | [] => connectFail [dbReq]
    | r1 :: rest =>
      if r1.status ≠ 200 then
        { requests := [dbReq], ctxErrors := [],
          result := Except.ok ("Error retrieving database: " ++ toString r1.status ++ " - " ++ r1.text) }
      else
        let queryReq : HttpRequest :=
          ⟨HttpMethod.post, "https://api.notion.com/v1/databases/" ++ database_id ++ "/query",
            some (Json.obj (databaseQueryPayload max_pages))⟩
        match rest with
        | [] => connectFail [dbReq, queryReq]
        | r2 :: _ =>
          { requests := [dbReq, queryReq], ctxErrors := [],
            result :=
              if r2.status ≠ 200 then
                Except.ok ("Error querying database: " ++ toString r2.status ++ " - " ++ r2.text)
              else
                databaseBody r1.body r2.body }

/-! ### get_block_children (main.py lines 476-510) -/

/-- Formatting of a successful block-children response body
(main.py lines 497-510). -/
def blockChildrenBody (data : Json) : Except String String := do
  let results ← pyGet data "results" (Json.arr [])
  if truthy results = false then
    return "This block has no children."
  let blocks ← pyIter results
  let blockLines ← blocks.mapM (fun b => format_block b 0)
  let kept := blockLines.filter (fun l => l ≠ "")
  return String.intercalate "\n" kept

/-- Embedding of `get_block_children(block_id, ctx)` (main.py lines 476-510). -/
def get_block_children (env : Option String) (block_id : String)
    (responses : List HttpResponse) : ToolOutcome :=
  match check_api_key env with
  | Except.error e => { requests := [], ctxErrors := [noApiKeyMsg], result := Except.error e }
  | Except.ok _ =>
    let req : HttpRequest :=
      ⟨HttpMethod.get, "https://api.notion.com/v1/blocks/" ++ block_id ++ "/children", none⟩
    match responses with
    | [] => connectFail [req]
    | r :: _ =>
      { requests := [req], ctxErrors := [],
        result :=
          if r.status ≠ 200 then
            Except.ok ("Error retrieving block children: " ++ toString r.status ++ " - " ++ r.text)
          else
            blockChildrenBody r.body }

/-! ### Helper lemmas -/

theorem okBind {α β : Type} (a : α) (f : α → Except String β) :
    (Except.ok a >>= f : Except String β) = f a := rfl

theorem errBind {α β : Type} (e : String) (f : α → Except String β) :
    ((Except.error e : Except String α) >>= f) = Except.error e := rfl

theorem pureEx {α : Type} (a : α) : (pure a : Except String α) = Except.ok a := rfl

theorem mapMSingle {α β : Type} (f : α → Except String β) (a : α) :
    List.mapM f [a] = f a >>= fun b => pure [b] := rfl

/-! ### Claims -/

/-- C1 (code_bug evidence): the spec promises that `format_block` never
raises and that a callout icon that is absent **or null** degrades to an
empty emoji, but on a callout block whose `icon` field is null the source
evaluates `content.get("icon", {}).get("emoji", "")` where the first `get`
returns the stored `None` (the `{}` default applies only to a missing key),
so the second `get` raises `AttributeError`. -/
theorem c1_callout_null_icon_raises :
    format_block
      (Json.obj [("type", Json.str "callout"),
                 ("callout", Json.obj [("rich_text", Json.arr []), ("icon", Json.null)])]) 0
    = Except.error "AttributeError: NoneType object has no attribute get" := rfl

/-- C2 (counterexample): on a block with no `type` field the placeholder is
`"[Unsupported block type: None]"` — the f-string renders the Python `None`
as `"None"` — and not the claimed `"[Unsupported block type: ]"` with an
empty bracketed part. -/
theorem c2_counterexample :
    format_block (Json.obj []) 0 = Except.ok "[Unsupported block type: None]" ∧
    "[Unsupported block type: None]" ≠ "[Unsupported block type: ]" :=
  ⟨rfl, by decide⟩

/-- C2 (amended): the renderer returns exactly the placeholder line at the
given indent, the bracketed part being `"None"` (the `str()` image of the
null value) when `type` is absent, and the type string itself when `type`
is present as a non-empty string whose payload key is missing. -/
theorem c2_unsupported_placeholder (kvs : List (String × Json)) (indent : Nat) :
    (lookupKey "type" kvs = none →
      format_block (Json.obj kvs) indent
        = Except.ok (unsupportedLine (indentStr indent) "None")) ∧
    (∀ s : String, lookupKey "type" kvs = some (Json.str s) → s ≠ "" →
      lookupKey s kvs = none →
      format_block (Json.obj kvs) indent
        = Except.ok (unsupportedLine (indentStr indent) s)) := by
  constructor
  · intro h
    simp [format_block, pyGet, h, truthy, pyStr, okBind, pureEx]
  · intro s hs hne hp
    simp [format_block, pyGet, hs, truthy, hne, pyContainsKey, hp, okBind, pureEx]

/-- C2 (witness): the amended placeholder equations evaluated on a block
with no `type`, and on a block of type `"xyz"` without an `"xyz"` payload. -/
theorem c2_unsupported_placeholder_witness :
    format_block (Json.obj []) 1 = Except.ok (unsupportedLine (indentStr 1) "None") ∧
    format_block (Json.obj [("type", Json.str "xyz")]) 0
      = Except.ok (unsupportedLine (indentStr 0) "xyz") :=
  ⟨(c2_unsupported_placeholder [] 1).1 rfl,
   (c2_unsupported_placeholder [("type", Json.str "xyz")] 0).2 "xyz" rfl (by decide) rfl⟩


/-- C3 (counterexample): a block with `has_children` true but no `type`
takes the unsupported-type early return, whose output does not contain the
child-blocks notice — the claim asserted the notice appears regardless of
the type of the block, including an absent type. -/
theorem c3_counterexample :
    format_block (Json.obj [("has_children", Json.bool true)]) 0
      = Except.ok "[Unsupported block type: None]" ∧
    strIsSubstr childNote "[Unsupported block type: None]" = false :=
  ⟨rfl, rfl⟩

/-- C3 (amended): for every block that reaches the per-type dispatch (its
`type` is present as a non-empty string and the matching payload key is
present), if `has_children` is truthy then whatever string the renderer
returns ends with the appended child-blocks notice on its own indented
line; blocks taking the unsupported-type early return do not get the
notice, and the renderer is a pure function of the block — no HTTP request
is representable in it, so none is made. -/
theorem c3_children_note (kvs : List (String × Json)) (indent : Nat) (s : String)
    (payload hc : Json) (out : String)
    (hs : lookupKey "type" kvs = some (Json.str s)) (hne : s ≠ "")
    (hp : lookupKey s kvs = some payload)
    (hhc : lookupKey "has_children" kvs = some hc) (htr : truthy hc = true)
    (hout : format_block (Json.obj kvs) indent = Except.ok out) :
    ∃ main, out = main ++ "\n" ++ indentStr indent ++ childNote := by
  have hts : truthy (Json.str s) = true := by simp [truthy, hne]
  simp [format_block, pyGet, hs, hhc, hts, pyContainsKey, hp, pyIndex, htr,
    okBind, pureEx] at hout
  cases hb : blockBody s payload (indentStr indent) with
  | error e =>
    rw [hb, errBind] at hout
    cases hout
  | ok m =>
    rw [hb, okBind] at hout
    exact ⟨m, (Except.ok.inj hout).symm⟩

/-- C3 (witness): a paragraph block with `has_children` true, evaluated
concretely; its rendering ends with the child-blocks notice. -/
theorem c3_children_note_witness :
    ∃ main, ("" ++ "\n" ++ indentStr 0 ++ childNote : String)
      = main ++ "\n" ++ indentStr 0 ++ childNote :=
  c3_children_note
    [("type", Json.str "paragraph"),
     ("paragraph", Json.obj [("rich_text", Json.arr [])]),
     ("has_children", Json.bool true)]
    0 "paragraph" (Json.obj [("rich_text", Json.arr [])]) (Json.bool true)
    ("" ++ "\n" ++ indentStr 0 ++ childNote)
    rfl (by decide) rfl rfl rfl rfl

/-- C4 (counterexample): a `number` property whose stored value is null is
rendered as `"None"` (the `str()` image of the Python `None` assigned by
`prop_value = prop_data["number"]`), not as the claimed default `"N/A"` —
the number branch, unlike the url/email/phone branches, has no null guard. -/
theorem c4_counterexample :
    formatProperty "Score" (Json.obj [("type", Json.str "number"), ("number", Json.null)])
      = Except.ok "- Score: None" ∧
    "- Score: None" ≠ "- Score: N/A" :=
  ⟨rfl, by decide⟩

/-- C4 (amended): a `number` property with a numeric value is rendered as
its literal numeric value, and a `number` property whose `number` key is
missing falls through to the default `"N/A"`; a present-but-null value,
however, renders as `"None"` (see the counterexample). -/
theorem c4_number_rendering (name : String) (n : Int) :
    formatProperty name (Json.obj [("type", Json.str "number"), ("number", Json.num n)])
      = Except.ok ("- " ++ name ++ ": " ++ toString n) ∧
    formatProperty name (Json.obj [("type", Json.str "number")])
      = Except.ok ("- " ++ name ++ ": " ++ "N/A") :=
  ⟨rfl, rfl⟩

/-- C5 (confirmed): invoked without a configured credential, each of the
four tools reports through the context error facility, raises the
`ValueError`, and attempts no HTTP request — whatever its other arguments
and whatever the network would have answered. -/
theorem c5_missing_credential_aborts (q ft : Option String) (ps : Int)
    (rs1 rs2 rs3 rs4 : List HttpResponse) (pid dbid bid : String) (mp : Int) :
    search_notion_pages none q ft ps rs1 = abortOutcome ∧
    get_page_content none pid rs2 = abortOutcome ∧
    get_database_content none dbid mp rs3 = abortOutcome ∧
    get_block_children none bid rs4 = abortOutcome ∧
    abortOutcome.requests = [] ∧
    abortOutcome.ctxErrors = [noApiKeyMsg] ∧
    abortOutcome.result = Except.error valueErrorMsg :=
  ⟨rfl, rfl, rfl, rfl, rfl, rfl, rfl⟩

/-- C6 (counterexample): page_size 0 is falsy, so `if page_size:` skips the
entry — the request actually issued carries no `page_size` key at all,
while the claim promised the payload carries `min(100, page_size)` for
every requested value. -/
theorem c6_counterexample :
    (search_notion_pages (some "key") none none 0
        [⟨200, Json.obj [("results", Json.arr [])], ""⟩]).requests
      = [⟨HttpMethod.post, searchUrl, some (Json.obj (searchPayload none none 0))⟩] ∧
    lookupKey "page_size" (searchPayload none none 0) = none :=
  ⟨rfl, rfl⟩

/-- C6 (amended): for every nonzero requested page_size the request payload
carries `page_size = min(100, page_size)` (so e.g. requesting 500 sends
100); a requested page_size of 0 is falsy and produces no `page_size` key. -/
theorem c6_page_size_clamped (q ft : Option String) (ps : Int) (h : ps ≠ 0) :
    lookupKey "page_size" (searchPayload q ft ps) = some (Json.num (min 100 ps)) := by
  cases q <;> cases ft <;>
    simp [searchPayload, lookupKey, h] <;>
    (repeat' split) <;> simp [lookupKey]

/-- C6 (witness): requesting 500 yields a payload whose page_size is 100. -/
theorem c6_page_size_clamped_witness :
    lookupKey "page_size" (searchPayload none none 500) = some (Json.num 100) :=
  c6_page_size_clamped none none 500 (by decide)

/-- C7 (confirmed): a 200 search response whose `results` list is empty
makes the tool return exactly the literal `"No results found"`. -/
theorem c7_no_results (k : String) (q ft : Option String) (ps : Int) (t : String)
    (rest : List HttpResponse) (kvs : List (String × Json))
    (hk : k ≠ "") (hr : lookupKey "results" kvs = some (Json.arr [])) :
    (search_notion_pages (some k) q ft ps
        (⟨200, Json.obj kvs, t⟩ :: rest)).result
      = Except.ok "No results found" := by
  simp [search_notion_pages, check_api_key, hk, searchFormatBody, pyGet, hr, truthy,
    okBind, pureEx]

/-- C7 (witness): the empty-results case evaluated concretely. -/
theorem c7_no_results_witness :
    (search_notion_pages (some "secret") none none 10
        [⟨200, Json.obj [("results", Json.arr [])], ""⟩]).result
      = Except.ok "No results found" :=
  c7_no_results "secret" none none 10 "" [] [("results", Json.arr [])] (by decide) rfl

/-- C8 (confirmed): whenever filter_type is neither exactly "page" nor
exactly "database" — including absent and arbitrary other strings — the
payload has no `filter` key, and the request is still issued (payload
construction never fails on account of filter_type). -/
theorem c8_filterless (q : Option String) (ps : Int) (ft : Option String)
    (h1 : ft ≠ some "page") (h2 : ft ≠ some "database") :
    lookupKey "filter" (searchPayload q ft ps) = none ∧
    (search_notion_pages (some "key") q ft ps
        [⟨200, Json.obj [("results", Json.arr [])], ""⟩]).requests
      = [⟨HttpMethod.post, searchUrl, some (Json.obj (searchPayload q ft ps))⟩] := by
  constructor
  · cases q <;> cases ft <;>
      simp [searchPayload, lookupKey] <;>
      (repeat' split) <;> simp_all [lookupKey]
  · rfl

/-- C8 (witness): an unrecognized filter_type ("block") leaves the payload
filter-less while the request is issued. -/
theorem c8_filterless_witness :
    lookupKey "filter" (searchPayload (some "q") (some "block") 10) = none ∧
    (search_notion_pages (some "key") (some "q") (some "block") 10
        [⟨200, Json.obj [("results", Json.arr [])], ""⟩]).requests
      = [⟨HttpMethod.post, searchUrl, some (Json.obj (searchPayload (some "q") (some "block") 10))⟩] :=
  c8_filterless (some "q") 10 (some "block") (by decide) (by decide)

/-- C9 (confirmed): with page_size 0 the payload contains no `page_size`
key at all — the entry is added only when the argument is truthy. -/
theorem c9_zero_page_size (q ft : Option String) :
    lookupKey "page_size" (searchPayload q ft 0) = none := by
  cases q <;> cases ft <;>
    simp [searchPayload, lookupKey] <;>
    (repeat' split) <;> simp_all [lookupKey]

theorem mapMLoopSingle {α β : Type} (f : α → Except String β) (a : α) :
    List.mapM.loop f [a] [] = f a >>= fun b => pure [b] := rfl

theorem interGo (a sep : String) : String.intercalate.go a sep [] = a := rfl

/-- C10 (confirmed): a successful search hit whose `object` is neither
"page" nor "database" — or absent, defaulting to "unknown" — is still
listed: it is rendered with title "Untitled", its object type, ID, URL and
last-edited time, and the full tool output on a response holding such a
hit is exactly that rendering. -/
theorem c10_unknown_object_listed (t : String) (idv urlv lastv : Json)
    (h1 : t ≠ "page") (h2 : t ≠ "database") :
    formatSearchItem (Json.obj [("id", idv), ("object", Json.str t), ("url", urlv),
        ("last_edited_time", lastv)])
      = Except.ok ("- " ++ "Untitled" ++ " (" ++ t ++ ")\n  ID: " ++ pyStr idv ++
          "\n  URL: " ++ pyStr urlv ++ "\n  Last Edited: " ++ pyStr lastv) ∧
    (search_notion_pages (some "key") none none 10
        [⟨200, Json.obj [("results",
            Json.arr [Json.obj [("id", idv), ("object", Json.str t), ("url", urlv),
              ("last_edited_time", lastv)]])], ""⟩]).result
      = Except.ok ("- " ++ "Untitled" ++ " (" ++ t ++ ")\n  ID: " ++ pyStr idv ++
          "\n  URL: " ++ pyStr urlv ++ "\n  Last Edited: " ++ pyStr lastv) ∧
    formatSearchItem (Json.obj [("id", idv)])
      = Except.ok ("- " ++ "Untitled" ++ " (" ++ "unknown" ++ ")\n  ID: " ++ pyStr idv ++
          "\n  URL: " ++ "No URL" ++ "\n  Last Edited: " ++ "Unknown") := by
  have hitem : formatSearchItem (Json.obj [("id", idv), ("object", Json.str t), ("url", urlv),
      ("last_edited_time", lastv)])
      = Except.ok ("- " ++ "Untitled" ++ " (" ++ t ++ ")\n  ID: " ++ pyStr idv ++
          "\n  URL: " ++ pyStr urlv ++ "\n  Last Edited: " ++ pyStr lastv) := by
    simp [formatSearchItem, searchItemTitle, isStr, pyGet, lookupKey, h1, h2,
      okBind, pureEx, pyStr]
  refine ⟨hitem, ?_, ?_⟩
  · simp [search_notion_pages, check_api_key, searchFormatBody, pyGet, lookupKey, truthy,
      pyIter, mapMLoopSingle, hitem, okBind, pureEx, String.intercalate, interGo]
  · simp [formatSearchItem, searchItemTitle, isStr, pyGet, lookupKey, okBind, pureEx, pyStr]

/-- C10 (witness): a hit whose object type is "comment", evaluated
concretely. -/
theorem c10_unknown_object_listed_witness :
    formatSearchItem (Json.obj [("id", Json.str "abc"), ("object", Json.str "comment"),
        ("url", Json.str "https://x"), ("last_edited_time", Json.str "2024-01-01")])
      = Except.ok ("- " ++ "Untitled" ++ " (" ++ "comment" ++ ")\n  ID: " ++ pyStr (Json.str "abc") ++
          "\n  URL: " ++ pyStr (Json.str "https://x") ++ "\n  Last Edited: " ++ pyStr (Json.str "2024-01-01")) ∧
    (search_notion_pages (some "key") none none 10
        [⟨200, Json.obj [("results",
            Json.arr [Json.obj [("id", Json.str "abc"), ("object", Json.str "comment"),
              ("url", Json.str "https://x"), ("last_edited_time", Json.str "2024-01-01")]])], ""⟩]).result
      = Except.ok ("- " ++ "Untitled" ++ " (" ++ "comment" ++ ")\n  ID: " ++ pyStr (Json.str "abc") ++
          "\n  URL: " ++ pyStr (Json.str "https://x") ++ "\n  Last Edited: " ++ pyStr (Json.str "2024-01-01")) ∧
    formatSearchItem (Json.obj [("id", Json.str "abc")])
      = Except.ok ("- " ++ "Untitled" ++ " (" ++ "unknown" ++ ")\n  ID: " ++ pyStr (Json.str "abc") ++
          "\n  URL: " ++ "No URL" ++ "\n  Last Edited: " ++ "Unknown") :=
  c10_unknown_object_listed "comment" (Json.str "abc") (Json.str "https://x")
    (Json.str "2024-01-01") (by decide) (by decide)
